import Mathlib

/-!
Shallow embedding of the purchase-processing service in
src/mmog-microtx-js/src/handler.js (the Node.js Lambda handler), together
with theorems checking the specification's claims against it.

Modelling conventions:
- The PostgreSQL store is a list of rows (`Db`).  `processPurchase` wraps its
  two writes in one SQL transaction (`BEGIN` ... `COMMIT`), modelled by an
  uncommitted working copy of the rows that is published on `COMMIT` and
  discarded on `ROLLBACK`.
- Infrastructure faults of the store client (the pg client raising on a
  query) are modelled by a `Faults` record saying which of the three writes
  (insert, status update, commit) raises on this invocation.
- `uuidv4()` and `new Date().toISOString()` are nondeterministic in the
  source; they are modelled by a supply (`Env`) holding a uuid seed and a
  clock, threaded through every call in source order.  Timestamps are `Nat`
  ticks.
- JSON response bodies built by the handler are modelled by the `JVal`
  inductive, with one field per key of the object literal in the source, so
  that presence or absence of a key is expressible.
-/

namespace Mmog

/-- Transaction status string constants (handler.js, `TransactionStatus`). -/
def TransactionStatus.PENDING : String := "pending"

/-- Status `completed`. -/
def TransactionStatus.COMPLETED : String := "completed"

/-- Status `failed`. -/
def TransactionStatus.FAILED : String := "failed"

/-- Status `refunded`. -/
def TransactionStatus.REFUNDED : String := "refunded"

/-- Supply of fresh uuids and of clock readings, modelling the `uuid`
library's `v4()` generator and `new Date()`. -/
structure Env where
  uuidSeed : Nat
  clock : Nat
deriving DecidableEq

/-- Model of `uuidv4()`: draws the next fresh identifier from the supply.
Every generated identifier is a non-empty string, fresh per seed. -/
def uuidv4 (env : Env) : String × Env :=
  ("uuid-" ++ toString env.uuidSeed, { env with uuidSeed := env.uuidSeed + 1 })

/-- Model of `new Date().toISOString()`: reads and advances the clock. -/
def nowISO (env : Env) : Nat × Env :=
  (env.clock, { env with clock := env.clock + 1 })

/-- One row of the `microtransactions` table (column list as in the INSERT
statement of `processPurchase` and the migration schema). -/
structure Row where
  transaction_id : String
  player_id : String
  item_id : String
  item_name : String
  price_cents : Nat
  currency : String
  quantity : Nat
  status : String
  /-- The `processor_id` column exists in the table schema (nullable) but is
  never written by the handler: the INSERT omits it and the UPDATE does not
  touch it, so it stays NULL (`none`). -/
  processor_id : Option String
  metadata : String
  created_at : Nat
  updated_at : Nat
deriving DecidableEq

/-- The committed contents of the relational store. -/
structure Db where
  rows : List Row
deriving DecidableEq

/-- Raw (already JSON-parsed) request body reaching `purchaseSchema.validate`;
`none` models an absent key.  JSON numbers are restricted to integers here,
which is the only case the schema accepts (`Joi.number().integer()`). -/
structure PurchaseBody where
  player_id : Option String
  item_id : Option String
  item_name : Option String
  price_cents : Option Int
  currency : Option String
  quantity : Option Int
  metadata : Option String
deriving DecidableEq

/-- ASCII hexadecimal digit test, for the uuid shape check. -/
def isHexDigit (c : Char) : Bool :=
  (decide ('0' ≤ c) && decide (c ≤ '9')) ||
  (decide ('a' ≤ c) && decide (c ≤ 'f')) ||
  (decide ('A' ≤ c) && decide (c ≤ 'F'))

/-- Character-level check of the canonical 8-4-4-4-12 uuid shape, `i` being
the index of the next character. -/
def uuidShape : List Char → Nat → Bool
  | [], i => i == 36
  | c :: cs, i =>
    (if i == 8 || i == 13 || i == 18 || i == 23 then c == '-' else isHexDigit c) &&
    uuidShape cs (i + 1)

/-- Model of `Joi.string().uuid()`: accepts canonical-form uuid strings. -/
def isUuid (s : String) : Bool := uuidShape s.toList 0

/-- Model of Joi's uppercase conversion (`.uppercase()` with the default
`convert: true`), i.e. JS `toUpperCase` on ASCII. -/
def jsToUpper (s : String) : String := String.mk (s.data.map Char.toUpper)

/-- A purchase request after successful validation (the `value` returned by
`purchaseSchema.validate`): required fields present, `currency` upper-cased,
`quantity` defaulted to 1, bounds established. -/
structure ValidRequest where
  player_id : String
  item_id : String
  item_name : String
  price_cents : Nat
  currency : String
  quantity : Nat
  metadata : Option String
deriving DecidableEq

/-- Model of `purchaseSchema.validate(body)` (handler.js lines 36-44).
Joi's `validate` runs with its default `abortEarly: true`: keys are checked
in schema order (player_id, item_id, item_name, price_cents, currency,
quantity, metadata) and validation stops at the first violation, so
`error.details` holds exactly one message.  Success returns the converted
value (currency upper-cased, quantity defaulted to 1). -/
def validatePurchase (b : PurchaseBody) : Except (List String) ValidRequest :=
  match b.player_id with
  | none => Except.error ["player_id is required"]
  | some pid =>
    if !isUuid pid then Except.error ["player_id must be a valid GUID"] else
    match b.item_id with
    | none => Except.error ["item_id is required"]
    | some itemId =>
      if itemId == "" then Except.error ["item_id is not allowed to be empty"] else
      match b.item_name with
      | none => Except.error ["item_name is required"]
      | some itemName =>
        if itemName == "" then Except.error ["item_name is not allowed to be empty"] else
        if 255 < itemName.length then
          Except.error ["item_name length must be at most 255 characters long"] else
        match b.price_cents with
        | none => Except.error ["price_cents is required"]
        | some price =>
          if price < 1 then Except.error ["price_cents must be greater than or equal to 1"] else
          if 99999999 < price then
            Except.error ["price_cents must be less than or equal to 99999999"] else
          match b.currency with
          | none => Except.error ["currency is required"]
          | some cur =>
            if (jsToUpper cur).length != 3 then
              Except.error ["currency length must be 3 characters long"] else
            match b.quantity with
            | none =>
              Except.ok { player_id := pid, item_id := itemId, item_name := itemName,
                          price_cents := price.toNat, currency := jsToUpper cur,
                          quantity := 1, metadata := b.metadata }
            | some q =>
              if q < 1 then Except.error ["quantity must be greater than or equal to 1"] else
              if 100 < q then Except.error ["quantity must be less than or equal to 100"] else
              Except.ok { player_id := pid, item_id := itemId, item_name := itemName,
                          price_cents := price.toNat, currency := jsToUpper cur,
                          quantity := q.toNat, metadata := b.metadata }

/-- Argument object of `processPayment` (built at handler.js lines 136-140). -/
structure PaymentData where
  amount : Nat
  currency : String
  playerId : String
deriving DecidableEq

/-- Return object of `processPayment` (handler.js lines 189-195).  The
`error` key is added by object spread only on failure, modelled as an
`Option`; `processorId` and `timestamp` are unconditional keys. -/
structure PaymentResult where
  success : Bool
  processorId : String
  timestamp : Nat
  error : Option String
deriving DecidableEq

/-- Model of `processPayment` (handler.js lines 182-196): success iff the
amount is below 100000; a fresh `processorId` and a timestamp are always
attached; the `error` key is present only on failure. -/
def processPayment (paymentData : PaymentData) (env : Env) : PaymentResult × Env :=
  let success := decide (paymentData.amount < 100000)
  let (pid, env1) := uuidv4 env
  let (ts, env2) := nowISO env1
  ({ success := success, processorId := pid, timestamp := ts,
     error := if success then none else some "Payment declined" }, env2)

/-- The payment-data object `processPurchase` passes to `processPayment`
(handler.js lines 136-140): the amount is `price_cents` as given. -/
def paymentInput (purchaseData : ValidRequest) : PaymentData :=
  { amount := purchaseData.price_cents,
    currency := purchaseData.currency,
    playerId := purchaseData.player_id }

/-- Which store writes raise on this invocation (infrastructure faults of
the pg client). -/
structure Faults where
  insertFails : Bool
  updateFails : Bool
  commitFails : Bool
deriving DecidableEq

/-- Value thrown by a failing store query and rethrown by
`processPurchase`'s catch block. -/
inductive JsError where
  | dbError (msg : String)
deriving DecidableEq

/-- The `item` part of the purchase response object (handler.js 161-165). -/
structure ItemInfo where
  id : String
  name : String
  quantity : Nat
deriving DecidableEq

/-- The `payment` part of the purchase response object (handler.js 166-169). -/
structure PaymentInfo where
  amount : Nat
  currency : String
deriving DecidableEq

/-- Return object of `processPurchase` (handler.js lines 158-170).  Its keys
are exactly `transactionId`, `status`, `item`, `payment`. -/
structure PurchaseResponse where
  transactionId : String
  status : String
  item : ItemInfo
  payment : PaymentInfo
deriving DecidableEq

/-- Model of `JSON.stringify(purchaseData.metadata || \x7b\x7d)`: the stored
metadata text, `"\x7b\x7d"` when the field was absent. -/
def jsonStringifyMeta (m : Option String) : String := m.getD "\x7b\x7d"

/-- Model of the UPDATE statement of `processPurchase` (handler.js 144-153):
set `status` and `updated_at` on the row whose `transaction_id` matches. -/
def updateStatus (rows : List Row) (transactionId : String) (newStatus : String)
    (ts : Nat) : List Row :=
  rows.map fun r =>
    if r.transaction_id == transactionId then
      { r with status := newStatus, updated_at := ts }
    else r

/-- Model of `processPurchase` (handler.js lines 89-176).  `BEGIN` opens a
working copy of the rows; the INSERT adds the pending row to it; the payment
is processed; the UPDATE rewrites the row's status in the working copy;
`COMMIT` publishes it.  A fault at any write triggers the catch block:
`ROLLBACK` (the working copy is discarded, the committed store is returned
unchanged) and the error is rethrown. -/
def processPurchase (purchaseData : ValidRequest) (faults : Faults) (db : Db)
    (env : Env) : Except JsError PurchaseResponse × Db × Env :=
  let work := db.rows
  let (transactionId, env) := uuidv4 env
  let (now, env) := nowISO env
  if faults.insertFails then
    (Except.error (JsError.dbError "insert failed"), db, env)
  else
    let row : Row :=
      { transaction_id := transactionId,
        player_id := purchaseData.player_id,
        item_id := purchaseData.item_id,
        item_name := purchaseData.item_name,
        price_cents := purchaseData.price_cents,
        currency := purchaseData.currency,
        quantity := purchaseData.quantity,
        status := TransactionStatus.PENDING,
        processor_id := none,
        metadata := jsonStringifyMeta purchaseData.metadata,
        created_at := now,
        updated_at := now }
    let work := work ++ [row]
    let (paymentResult, env) := processPayment (paymentInput purchaseData) env
    let (now2, env) := nowISO env
    -- the source issues the same UPDATE in both branches of
    -- `if (paymentResult.success)`, differing only in the status constant
    let statusRes :=
      if paymentResult.success then TransactionStatus.COMPLETED
      else TransactionStatus.FAILED
    if faults.updateFails then
      (Except.error (JsError.dbError "update failed"), db, env)
    else
      let work := updateStatus work transactionId statusRes now2
      if faults.commitFails then
        (Except.error (JsError.dbError "commit failed"), db, env)
      else
        (Except.ok
          { transactionId := transactionId,
            status := statusRes,
            item := { id := purchaseData.item_id, name := purchaseData.item_name,
                      quantity := purchaseData.quantity },
            payment := { amount := purchaseData.price_cents,
                         currency := purchaseData.currency } },
         { rows := work }, env)

/-- Insert a row into a list sorted by `created_at` descending, keeping
earlier rows first among equal timestamps. -/
def insertByCreatedDesc (r : Row) : List Row → List Row
  | [] => [r]
  | x :: xs =>
    if x.created_at < r.created_at then r :: x :: xs
    else x :: insertByCreatedDesc r xs

/-- Sort rows by `created_at` descending (insertion sort). -/
def sortByCreatedDesc : List Row → List Row
  | [] => []
  | x :: xs => insertByCreatedDesc x (sortByCreatedDesc xs)

/-- Model of the SELECT of `getPlayerTransactions` (handler.js lines
202-215): rows of the player, ordered by `created_at` descending, truncated
to `limit`.  The SQL specifies no tie-break, so rows with equal `created_at`
keep their table order in the model.  There is no cursor parameter and no
cap on `limit`. -/
def getPlayerTransactions (db : Db) (playerId : String) (limit : Nat) : List Row :=
  (sortByCreatedDesc (db.rows.filter fun r => r.player_id == playerId)).take limit

/-- The JS signature is `getPlayerTransactions(playerId, limit = 100)`; this
is the call with the default limit, as the handler performs it. -/
def getPlayerTransactionsDefault (db : Db) (playerId : String) : List Row :=
  getPlayerTransactions db playerId 100

/-- Adjacent-pairs check that a row list is ordered by `created_at`
descending (ties allowed). -/
def sortedDescBool : List Row → Bool
  | [] => true
  | [_] => true
  | a :: b :: rest => decide (b.created_at ≤ a.created_at) && sortedDescBool (b :: rest)

/-- JSON values, for the response bodies the handler serializes. -/
inductive JVal where
  | s (v : String)
  | n (v : Int)
  | b (v : Bool)
  | null
  | arr (vs : List JVal)
  | obj (fields : List (String × JVal))

/-- Look a key up in a JSON object; `none` on other values or a missing key. -/
def lookupField (j : JVal) (key : String) : Option JVal :=
  match j with
  | JVal.obj fields => fields.lookup key
  | _ => none

/-- JSON serialization of a table row (`SELECT *` returns every column). -/
def rowToJson (r : Row) : JVal :=
  JVal.obj [("transaction_id", JVal.s r.transaction_id),
            ("player_id", JVal.s r.player_id),
            ("item_id", JVal.s r.item_id),
            ("item_name", JVal.s r.item_name),
            ("price_cents", JVal.n (r.price_cents : Int)),
            ("currency", JVal.s r.currency),
            ("quantity", JVal.n (r.quantity : Int)),
            ("status", JVal.s r.status),
            ("processor_id", (r.processor_id.map JVal.s).getD JVal.null),
            ("metadata", JVal.s r.metadata),
            ("created_at", JVal.n (r.created_at : Int)),
            ("updated_at", JVal.n (r.updated_at : Int))]

/-- JSON serialization of the purchase response object: exactly the keys of
the object literal at handler.js lines 158-170. -/
def purchaseResponseToJson (r : PurchaseResponse) : JVal :=
  JVal.obj [("transactionId", JVal.s r.transactionId),
            ("status", JVal.s r.status),
            ("item", JVal.obj [("id", JVal.s r.item.id),
                               ("name", JVal.s r.item.name),
                               ("quantity", JVal.n (r.item.quantity : Int))]),
            ("payment", JVal.obj [("amount", JVal.n (r.payment.amount : Int)),
                                  ("currency", JVal.s r.payment.currency)])]

/-- Character-level split, modelling JS `String.prototype.split` with a
one-character separator. -/
def splitChar (sep : Char) : List Char → List (List Char)
  | [] => [[]]
  | c :: cs =>
    match splitChar sep cs with
    | [] => if c == sep then [[], []] else [[c]]
    | r :: rs => if c == sep then [] :: r :: rs else (c :: r) :: rs

/-- Model of `path.split(sep)` for a one-character separator. -/
def jsSplit (s : String) (sep : Char) : List String :=
  (splitChar sep s.toList).map String.mk

/-- Model of `path.startsWith(p)`. -/
def jsStartsWith (s p : String) : Bool := p.toList.isPrefixOf s.toList

/-- The fields of the Lambda event the handler reads, with the body already
JSON-parsed (raw-body parsing is outside the model). -/
structure HttpEvent where
  httpMethod : String
  path : String
  body : PurchaseBody
deriving DecidableEq

/-- Handler response: status code plus serialized JSON body. -/
structure HttpResponse where
  statusCode : Nat
  body : JVal

/-- Model of the Lambda `handler` (handler.js lines 224-310): route on
method and path; POST /purchase validates and runs `processPurchase` (a
thrown store error is caught and mapped to a 500 with a generic message);
GET /transactions/:playerId extracts the path segment and serves the
player's history with the default limit; anything else is a 404. -/
def handler (event : HttpEvent) (faults : Faults) (db : Db) (env : Env) :
    HttpResponse × Db × Env :=
  if event.httpMethod == "POST" && event.path == "/purchase" then
    match validatePurchase event.body with
    | Except.error details =>
      ({ statusCode := 400,
         body := JVal.obj [("error", JVal.s "Validation failed"),
                           ("details", JVal.arr (details.map JVal.s))] },
       db, env)
    | Except.ok value =>
      match processPurchase value faults db env with
      | (Except.ok result, db1, env1) =>
        ({ statusCode := 201, body := purchaseResponseToJson result }, db1, env1)
      | (Except.error _, db1, env1) =>
        ({ statusCode := 500,
           body := JVal.obj [("error", JVal.s "Internal server error"),
                             ("message", JVal.s "An unexpected error occurred")] },
         db1, env1)
  else
    if event.httpMethod == "GET" && jsStartsWith event.path "/transactions/" then
      let playerId := (jsSplit event.path '/').getD 2 ""
      if playerId == "" then
        ({ statusCode := 400,
           body := JVal.obj [("error", JVal.s "Player ID required")] }, db, env)
      else
        ({ statusCode := 200,
           body := JVal.obj [("transactions",
             JVal.arr ((getPlayerTransactionsDefault db playerId).map rowToJson))] },
         db, env)
    else
      ({ statusCode := 404, body := JVal.obj [("error", JVal.s "Not found")] },
       db, env)

/-! Concrete fixtures used by counterexamples and witnesses. -/

/-- Initial supply. -/
def env0 : Env := { uuidSeed := 0, clock := 0 }

/-- Empty store. -/
def db0 : Db := { rows := [] }

/-- No store faults. -/
def noFaults : Faults := { insertFails := false, updateFails := false, commitFails := false }

/-- The status UPDATE of the finalize step fails. -/
def finalizeFault : Faults := { insertFails := false, updateFails := true, commitFails := false }

/-- A well-formed player uuid. -/
def sampleUuid : String := "0f8fad5b-d9cb-469f-a165-70867728950e"

/-- A validated request with `price_cents` under the mock threshold. -/
def validReq : ValidRequest :=
  { player_id := sampleUuid, item_id := "sword_1", item_name := "Sword",
    price_cents := 1999, currency := "USD", quantity := 1, metadata := none }

/-- A payment whose amount reaches the decline threshold. -/
def bigPayment : PaymentData :=
  { amount := 100000, currency := "USD", playerId := sampleUuid }

/-- Request body violating four constraints at once: bad uuid, zero price,
two-letter currency, zero quantity. -/
def badBody : PurchaseBody :=
  { player_id := some "not-a-uuid", item_id := some "sword_1",
    item_name := some "Sword", price_cents := some 0, currency := some "US",
    quantity := some 0, metadata := none }

/-- Request body with every key absent. -/
def emptyBody : PurchaseBody :=
  { player_id := none, item_id := none, item_name := none, price_cents := none,
    currency := none, quantity := none, metadata := none }

/-- A committed row for the sample player. -/
def rowA : Row :=
  { transaction_id := "tx-a", player_id := sampleUuid, item_id := "sword_1",
    item_name := "Sword", price_cents := 1999, currency := "USD", quantity := 1,
    status := "completed", processor_id := none, metadata := "\x7b\x7d",
    created_at := 5, updated_at := 6 }

/-- Store holding one row for the sample player. -/
def dbA : Db := { rows := [rowA] }

/-- GET request for the sample player's history. -/
def listEvent : HttpEvent :=
  { httpMethod := "GET", path := "/transactions/" ++ sampleUuid, body := emptyBody }

/-- Row number `i` of the large fixture table: all for player `p1`, strictly
decreasing `created_at`. -/
def mkRow (i : Nat) : Row :=
  { transaction_id := "t" ++ toString i, player_id := "p1", item_id := "itm",
    item_name := "Item", price_cents := 1, currency := "USD", quantity := 1,
    status := "completed", processor_id := none, metadata := "\x7b\x7d",
    created_at := 2000 - i, updated_at := 2000 - i }

/-- A store with 1001 rows for one player. -/
def bigDb : Db := { rows := (List.range 1001).map mkRow }

end Mmog
namespace Mmog

/-! Helper lemmas about the history query's sort. -/

/-- Inserting adds one element to the length. -/
theorem length_insertByCreatedDesc (r : Row) (l : List Row) :
    (insertByCreatedDesc r l).length = l.length + 1 := by
  induction l with
  | nil => rfl
  | cons x xs ih =>
    simp only [insertByCreatedDesc]
    split <;> simp [ih]

/-- Sorting preserves the length. -/
theorem length_sortByCreatedDesc (l : List Row) :
    (sortByCreatedDesc l).length = l.length := by
  induction l with
  | nil => rfl
  | cons x xs ih => simp [sortByCreatedDesc, length_insertByCreatedDesc, ih]

/-- Auxiliary step for sortedness of insertion: inserting below a larger
head keeps the list sorted. -/
theorem sorted_cons_insertByCreatedDesc (l : List Row) (x r : Row)
    (h : sortedDescBool (x :: l) = true) (hle : r.created_at ≤ x.created_at) :
    sortedDescBool (x :: insertByCreatedDesc r l) = true := by
  induction l generalizing x with
  | nil => simp [insertByCreatedDesc, sortedDescBool, hle]
  | cons y ys ih =>
    simp only [sortedDescBool, Bool.and_eq_true, decide_eq_true_eq] at h
    simp only [insertByCreatedDesc]
    split
    · rename_i hlt
      simp [sortedDescBool, hle, Nat.le_of_lt hlt, h.2]
    · rename_i hnlt
      have hry : r.created_at ≤ y.created_at := Nat.le_of_not_lt hnlt
      simp only [sortedDescBool, Bool.and_eq_true, decide_eq_true_eq]
      exact ⟨h.1, ih y h.2 hry⟩

/-- Inserting into a sorted list keeps it sorted. -/
theorem sorted_insertByCreatedDesc (r : Row) (l : List Row)
    (h : sortedDescBool l = true) :
    sortedDescBool (insertByCreatedDesc r l) = true := by
  cases l with
  | nil => rfl
  | cons x xs =>
    simp only [insertByCreatedDesc]
    split
    · rename_i hlt
      simp only [sortedDescBool, Bool.and_eq_true, decide_eq_true_eq]
      exact ⟨Nat.le_of_lt hlt, h⟩
    · rename_i hnlt
      exact sorted_cons_insertByCreatedDesc xs x r h (Nat.le_of_not_lt hnlt)

/-- The sort's output is sorted by `created_at` descending. -/
theorem sorted_sortByCreatedDesc (l : List Row) :
    sortedDescBool (sortByCreatedDesc l) = true := by
  induction l with
  | nil => rfl
  | cons x xs ih => exact sorted_insertByCreatedDesc x (sortByCreatedDesc xs) ih

/-- A prefix of a sorted list is sorted. -/
theorem sorted_take (l : List Row) (n : Nat) (h : sortedDescBool l = true) :
    sortedDescBool (l.take n) = true := by
  induction l generalizing n with
  | nil => cases n <;> rfl
  | cons a t ih =>
    cases n with
    | zero => rfl
    | succ m =>
      cases t with
      | nil => cases m <;> rfl
      | cons b rest =>
        simp only [sortedDescBool, Bool.and_eq_true, decide_eq_true_eq] at h
        cases m with
        | zero => rfl
        | succ k =>
          have htail : sortedDescBool ((b :: rest).take (k + 1)) = true := ih (k + 1) h.2
          show (decide (b.created_at ≤ a.created_at) &&
            sortedDescBool (b :: rest.take k)) = true
          rw [Bool.and_eq_true, decide_eq_true_eq]
          exact ⟨h.1, htail⟩

/-- Membership in an insertion. -/
theorem mem_insertByCreatedDesc {r x : Row} {l : List Row} :
    x ∈ insertByCreatedDesc r l ↔ x = r ∨ x ∈ l := by
  induction l with
  | nil => simp [insertByCreatedDesc]
  | cons y ys ih =>
    simp only [insertByCreatedDesc]
    split
    · simp [or_comm, or_left_comm]
    · simp [ih]
      tauto

/-- Sorting permutes membership. -/
theorem mem_sortByCreatedDesc {x : Row} {l : List Row} :
    x ∈ sortByCreatedDesc l ↔ x ∈ l := by
  induction l with
  | nil => simp [sortByCreatedDesc]
  | cons y ys ih => simp [sortByCreatedDesc, mem_insertByCreatedDesc, ih]

/-! Claim theorems. -/

/-- C1 counterexample: with an empty store, a store fault at the finalize
UPDATE leaves the store empty — the pending row does NOT persist, because
the enclosing SQL transaction is rolled back — while the claim asserts the
persisted row remains in status `pending`. -/
theorem C1_counterexample :
    (processPurchase validReq finalizeFault db0 env0).2.1.rows = [] ∧
    (processPurchase validReq finalizeFault db0 env0).1
      = Except.error (JsError.dbError "update failed") :=
  ⟨rfl, rfl⟩

/-- C1 amended: a store fault during the finalize step makes the catch block
roll back the enclosing SQL transaction, so the committed store is unchanged
(the pending insert is undone, no row persists) and `processPurchase`
rethrows the raw store error (which the handler surfaces as a generic 500,
not a typed `Database` error). -/
theorem C1_amended (purchaseData : ValidRequest) (db : Db) (env : Env) :
    (processPurchase purchaseData finalizeFault db env).2.1 = db ∧
    (processPurchase purchaseData finalizeFault db env).1
      = Except.error (JsError.dbError "update failed") := by
  constructor <;> rfl

/-- C2 counterexample: for the valid request with `price_cents = 1999`
(under the threshold) the pipeline returns status `completed`, but the
response object carries NO `processor_id` (nor `processorId`) key, and the
committed row's `processor_id` column stays NULL — while the claim asserts
a non-empty `processor_id` accompanies the `completed` status. -/
theorem C2_counterexample :
    Except.map (fun r => r.status) (processPurchase validReq noFaults db0 env0).1
      = Except.ok TransactionStatus.COMPLETED ∧
    Except.map (fun r => lookupField (purchaseResponseToJson r) "processor_id")
      (processPurchase validReq noFaults db0 env0).1 = Except.ok none ∧
    Except.map (fun r => lookupField (purchaseResponseToJson r) "processorId")
      (processPurchase validReq noFaults db0 env0).1 = Except.ok none ∧
    (processPurchase validReq noFaults db0 env0).2.1.rows.map
      (fun r => r.processor_id) = [none] :=
  ⟨rfl, rfl, rfl, rfl⟩

/-- C2 amended: under the mock strategy a fault-free `process_purchase`
returns status `completed` exactly when `price_cents < 100000` and `failed`
otherwise, but no `processor_id` is ever set: the response object has no
such key in either case (the payment strategy's internal `processorId` is
never propagated). -/
theorem C2_amended (purchaseData : ValidRequest) (db : Db) (env : Env) :
    Except.map (fun r => r.status) (processPurchase purchaseData noFaults db env).1
      = Except.ok (if purchaseData.price_cents < 100000 then TransactionStatus.COMPLETED
                   else TransactionStatus.FAILED) ∧
    Except.map (fun r => lookupField (purchaseResponseToJson r) "processor_id")
      (processPurchase purchaseData noFaults db env).1 = Except.ok none ∧
    Except.map (fun r => lookupField (purchaseResponseToJson r) "processorId")
      (processPurchase purchaseData noFaults db env).1 = Except.ok none := by
  refine ⟨?_, rfl, rfl⟩
  by_cases h : purchaseData.price_cents < 100000 <;>
    simp [processPurchase, processPayment, paymentInput, uuidv4, nowISO, noFaults, h,
          Except.map]

/-- C3 counterexample: the input violating four constraints at once (bad
uuid, zero price, two-letter currency, zero quantity) is rejected with a
single message, for `player_id` only — Joi's `validate` aborts at the first
failing field, contradicting the claim that every violated field is listed. -/
theorem C3_counterexample :
    validatePurchase badBody = Except.error ["player_id must be a valid GUID"] :=
  rfl

/-- C3 amended: validation stops at the first violated field in schema
order (Joi's default `abortEarly`), so every validation failure carries
exactly one field message, not an aggregate of all violations. -/
theorem C3_amended (b : PurchaseBody) (l : List String)
    (h : validatePurchase b = Except.error l) : l.length = 1 := by
  unfold validatePurchase at h
  repeat' split at h
  all_goals
    first
      | exact Except.noConfusion h
      | (injection h with h; simp [← h])

/-- Witness for C3 amended at the four-violation input. -/
theorem C3_amended_witness :
    (["player_id must be a valid GUID"] : List String).length = 1 :=
  C3_amended badBody ["player_id must be a valid GUID"] (by rfl)

/-- C4 counterexample: a declined payment (`amount = 100000`) yields a
result carrying BOTH a failure reason and a populated processor reference —
the claim's "never both" is violated. -/
theorem C4_counterexample :
    (processPayment bigPayment env0).1.success = false ∧
    (processPayment bigPayment env0).1.error = some "Payment declined" ∧
    (processPayment bigPayment env0).1.processorId = "uuid-0" :=
  ⟨rfl, rfl, rfl⟩

/-- C4 amended: the failure reason is present exactly on failure, but the
processor reference is populated unconditionally — a fresh uuid is attached
to every result, declined ones included. -/
theorem C4_amended (p : PaymentData) (env : Env) :
    (processPayment p env).1.error
      = (if (processPayment p env).1.success = true then none
         else some "Payment declined") ∧
    (processPayment p env).1.processorId = "uuid-" ++ toString env.uuidSeed := by
  by_cases h : p.amount < 100000 <;> simp [processPayment, uuidv4, nowISO, h]

/-- C5 counterexample: the history endpoint's 200 response body for a store
with one row contains only the `transactions` key — looking up `has_more`
yields nothing, while the claim asserts a `has_more` boolean is returned. -/
theorem C5_counterexample :
    (handler listEvent noFaults dbA env0).1.statusCode = 200 ∧
    lookupField (handler listEvent noFaults dbA env0).1.body "transactions"
      = some (JVal.arr [rowToJson rowA]) ∧
    lookupField (handler listEvent noFaults dbA env0).1.body "has_more" = none :=
  ⟨rfl, rfl, rfl⟩

/-- C5 amended: a successful history read returns a body whose only key is
`transactions` (the ordered rows); no `has_more` flag exists in the
response. -/
theorem C5_amended (db : Db) (env : Env) (ev : HttpEvent)
    (h1 : (ev.httpMethod == "POST" && ev.path == "/purchase") = false)
    (h2 : (ev.httpMethod == "GET" && jsStartsWith ev.path "/transactions/") = true)
    (h3 : (jsSplit ev.path '/').getD 2 "" ≠ "") :
    (handler ev noFaults db env).1.statusCode = 200 ∧
    (handler ev noFaults db env).1.body
      = JVal.obj [("transactions", JVal.arr
          ((getPlayerTransactionsDefault db ((jsSplit ev.path '/').getD 2 "")).map
            rowToJson))] ∧
    lookupField (handler ev noFaults db env).1.body "has_more" = none := by
  have h3' : ¬((jsSplit ev.path '/')[2]?.getD "" = "") := by
    simpa [List.getD] using h3
  refine ⟨?_, ?_, ?_⟩ <;> simp [handler, h1, h2, h3', lookupField, List.lookup, List.getD]

/-- Witness for C5 amended at a concrete GET event and one-row store. -/
theorem C5_amended_witness :
    (handler listEvent noFaults dbA env0).1.statusCode = 200 ∧
    (handler listEvent noFaults dbA env0).1.body
      = JVal.obj [("transactions", JVal.arr
          ((getPlayerTransactionsDefault dbA ((jsSplit listEvent.path '/').getD 2 "")).map
            rowToJson))] ∧
    lookupField (handler listEvent noFaults dbA env0).1.body "has_more" = none :=
  C5_amended dbA env0 listEvent (by rfl) (by rfl) (by decide)

set_option maxRecDepth 40000 in
/-- C6 counterexample: with 1001 rows for one player and a caller-supplied
limit of 1001, the query returns all 1001 rows — there is no hard cap of
1000 as the claim asserts. -/
theorem C6_counterexample :
    (getPlayerTransactions bigDb "p1" 1001).length = 1001 := by
  have hAll : ∀ l : List Nat,
      ((l.map mkRow).filter fun r => r.player_id == "p1") = l.map mkRow := by
    intro l
    induction l with
    | nil => rfl
    | cons x xs ih => simp [List.filter, mkRow, ih]
  have hfilter : (bigDb.rows.filter fun r => r.player_id == "p1") = bigDb.rows :=
    hAll (List.range 1001)
  have hlen : bigDb.rows.length = 1001 := by
    show ((List.range 1001).map mkRow).length = 1001
    rw [List.length_map, List.length_range]
  unfold getPlayerTransactions
  rw [hfilter, List.length_take, length_sortByCreatedDesc, hlen]
  exact min_self 1001

/-- C6 amended: the query filters to the player's rows, orders them by
`created_at` descending only (the SQL has no `transaction_id` tie-break),
and truncates to exactly the caller-supplied limit — no 1000 cap and no
cursor parameter exist. -/
theorem C6_amended (db : Db) (pid : String) (limit : Nat) :
    (getPlayerTransactions db pid limit).length
      = min limit (db.rows.filter fun r => r.player_id == pid).length ∧
    sortedDescBool (getPlayerTransactions db pid limit) = true ∧
    (getPlayerTransactions db pid limit).all (fun r => r.player_id == pid) = true := by
  refine ⟨?_, ?_, ?_⟩
  · simp [getPlayerTransactions, List.length_take, length_sortByCreatedDesc]
  · exact sorted_take _ limit (sorted_sortByCreatedDesc _)
  · rw [List.all_eq_true]
    intro r hr
    have hmem : r ∈ sortByCreatedDesc (db.rows.filter fun r => r.player_id == pid) :=
      List.mem_of_mem_take hr
    rw [mem_sortByCreatedDesc] at hmem
    exact (List.mem_filter.mp hmem).2

/-- C7: the amount handed to the payment step is the request's
`price_cents` exactly as given; it is invariant under any change of
`quantity`, so it is never multiplied by the quantity. -/
theorem C7_theorem (purchaseData : ValidRequest) (q : Nat) :
    (paymentInput purchaseData).amount = purchaseData.price_cents ∧
    paymentInput { purchaseData with quantity := q } = paymentInput purchaseData :=
  ⟨rfl, rfl⟩

/-- C8: when validation fails, the handler answers 400 with the validation
details and returns the store and the uuid/clock supply untouched — no
transaction record is created and no side effect reaches the store. -/
theorem C8_theorem (b : PurchaseBody) (details : List String) (faults : Faults)
    (db : Db) (env : Env) (h : validatePurchase b = Except.error details) :
    handler { httpMethod := "POST", path := "/purchase", body := b } faults db env
      = ({ statusCode := 400,
           body := JVal.obj [("error", JVal.s "Validation failed"),
                             ("details", JVal.arr (details.map JVal.s))] },
         db, env) := by
  simp [handler, h]

/-- Witness for C8 at the all-fields-absent body. -/
theorem C8_theorem_witness :
    handler { httpMethod := "POST", path := "/purchase", body := emptyBody }
        noFaults db0 env0
      = ({ statusCode := 400,
           body := JVal.obj [("error", JVal.s "Validation failed"),
                             ("details", JVal.arr (["player_id is required"].map JVal.s))] },
         db0, env0) :=
  C8_theorem emptyBody ["player_id is required"] noFaults db0 env0 (by rfl)

/-- C9: every history request served through the handler queries the store
with the default limit 100 and nothing else (no caller-supplied limit or
cursor is forwarded), so at most 100 rows of the first page are returned. -/
theorem C9_theorem (db : Db) (env : Env) (faults : Faults) (ev : HttpEvent)
    (h1 : (ev.httpMethod == "POST" && ev.path == "/purchase") = false)
    (h2 : (ev.httpMethod == "GET" && jsStartsWith ev.path "/transactions/") = true)
    (h3 : (jsSplit ev.path '/').getD 2 "" ≠ "") :
    (handler ev faults db env).1.body
      = JVal.obj [("transactions", JVal.arr
          ((getPlayerTransactions db ((jsSplit ev.path '/').getD 2 "") 100).map
            rowToJson))] ∧
    (getPlayerTransactions db ((jsSplit ev.path '/').getD 2 "") 100).length ≤ 100 := by
  have h3' : ¬((jsSplit ev.path '/')[2]?.getD "" = "") := by
    simpa [List.getD] using h3
  constructor
  · simp [handler, h1, h2, h3', getPlayerTransactionsDefault, List.getD]
  · simp only [getPlayerTransactions, List.length_take]
    omega

/-- Witness for C9 at a concrete GET event and one-row store. -/
theorem C9_theorem_witness :
    (handler listEvent noFaults dbA env0).1.body
      = JVal.obj [("transactions", JVal.arr
          ((getPlayerTransactions dbA ((jsSplit listEvent.path '/').getD 2 "") 100).map
            rowToJson))] ∧
    (getPlayerTransactions dbA ((jsSplit listEvent.path '/').getD 2 "") 100).length ≤ 100 :=
  C9_theorem dbA env0 noFaults listEvent (by rfl) (by rfl) (by decide)

/-- C10: the success flag of the payment result is a function of the amount
alone — two payments with equal amounts get equal flags whatever their
currency and player — and it holds exactly when the amount is below
100000. -/
theorem C10_theorem (p1 p2 : PaymentData) (env1 env2 : Env)
    (h : p1.amount = p2.amount) :
    (processPayment p1 env1).1.success = (processPayment p2 env2).1.success ∧
    (processPayment p1 env1).1.success = decide (p1.amount < 100000) := by
  simp [processPayment, uuidv4, nowISO, h]

/-- Witness for C10: same amount, different currency and player. -/
theorem C10_theorem_witness :
    (processPayment { amount := 1999, currency := "USD", playerId := "a" } env0).1.success
      = (processPayment { amount := 1999, currency := "EUR", playerId := "b" } env0).1.success ∧
    (processPayment { amount := 1999, currency := "USD", playerId := "a" } env0).1.success
      = decide ((1999 : Nat) < 100000) :=
  C10_theorem { amount := 1999, currency := "USD", playerId := "a" }
    { amount := 1999, currency := "EUR", playerId := "b" } env0 env0 rfl

end Mmog
